import Mathlib

/-!
Verification development for the watchlist reconciliation engine of the
`canvas` repository (`app/sync.py`, `app/jellyfin_client.py`, `app/models.py`).

The development shallowly embeds the reconciliation subsystem:

* `Item` embeds the `WatchlistItem` row (`app/models.py`), keeping every
  column the sync engine reads or writes plus representative "other" fields
  (timestamp columns maintained by database triggers are elided).
* `Adapter` abstracts the two `JellyfinClient` calls made by the sync loop
  (`find_item_by_tmdb_id` and `is_watched`), each modelled as a deterministic
  fallible function (`Except Unit _`; `.error` stands for a raised exception).
* `syncItem` embeds one iteration of the `for` loop of
  `sync_jellyfin_status` (`app/sync.py` lines 17-37), preserving the order of
  the in-place mutations, since an exception raised by `is_watched` leaves
  the mutations already applied to the ORM object in the session.
* `Db` / `sync_jellyfin_status` embed the session/commit structure of the
  run: all item mutations are buffered in the SQLAlchemy session and made
  durable by the single `db.commit()` after the loop (line 39).
* `find_item_by_tmdb_id`, `movie_is_watched`, `series_is_watched` embed the
  pure matching / watched-derivation logic of `app/jellyfin_client.py`.
* `runTrace` embeds the scheduler loop `run_periodic_sync`
  (`app/sync.py` lines 48-57) as the event trace of its first `n` ticks.
-/

/-- Embeds `WatchlistItem` (`app/models.py`).  `created_at` / `updated_at`
are server-maintained timestamps never touched by the engine and are
elided. -/
structure Item where
  id : Int
  title : String
  mediaType : String
  tmdbId : Int
  posterPath : Option String
  overview : Option String
  releaseDate : Option String
  isAvailable : Bool
  isWatched : Bool
  watchedManuallySet : Bool
  queueOrder : Option Int
  jellyfinItemId : Option String
deriving DecidableEq, Repr

/-- The remote item returned by `find_item_by_tmdb_id` as consumed by the
sync loop: the loop only reads `jellyfin_item.get("Id")`, which may be
absent (`none`). -/
structure RemoteMatch where
  id : Option String
deriving DecidableEq, Repr

/-- The two `JellyfinClient` operations invoked by `sync_jellyfin_status`,
abstracted as deterministic fallible functions of the arguments the loop
passes (`tmdb_id`, `media_type`, `title`).  `.error ()` models the call
raising an exception; `.ok none` models `find_item_by_tmdb_id` returning
`None`. -/
structure Adapter where
  find : Int → String → String → Except Unit (Option RemoteMatch)
  watched : Int → String → String → Except Unit Bool

/-- One iteration of the `for item in items` loop of `sync_jellyfin_status`
(`app/sync.py` lines 17-37).  The mutation order of the source is kept:
when a match is found, `is_available` and `jellyfin_item_id` are assigned
before `is_watched` is called, so an exception from `is_watched` (caught by
the `except` at line 35) leaves those two assignments in place. -/
def syncItem (ad : Adapter) (item : Item) : Item :=
  match ad.find item.tmdbId item.mediaType item.title with
  | .error _ => item
  | .ok (some j) =>
      let item1 := { item with isAvailable := true, jellyfinItemId := j.id }
      if !item.watchedManuallySet then
        match ad.watched item.tmdbId item.mediaType item.title with
        | .error _ => item1
        | .ok w => { item1 with isWatched := w }
      else item1
  | .ok none =>
      let item1 := { item with isAvailable := false }
      let item2 := if !item.watchedManuallySet then { item1 with isWatched := false }
                   else item1
      { item2 with jellyfinItemId := none }

/-- Whether processing `item` enters the per-item `except` handler of
`sync_jellyfin_status` (`app/sync.py` lines 35-37): either
`find_item_by_tmdb_id` raises, or a match is found, the watched status is
not manually set, and `is_watched` raises. -/
def itemSkipped (ad : Adapter) (item : Item) : Bool :=
  match ad.find item.tmdbId item.mediaType item.title with
  | .error _ => true
  | .ok (some _) =>
      !item.watchedManuallySet &&
        (match ad.watched item.tmdbId item.mediaType item.title with
         | .error _ => true
         | .ok _ => false)
  | .ok none => false

/-- Number of loop iterations of one sync run that enter the per-item
`except` handler (each prints "Error syncing item ..." and continues). -/
def skippedCount (ad : Adapter) (items : List Item) : Nat :=
  (items.filter (itemSkipped ad)).length

/-- Database state seen by one sync run: `durable` is the committed table
contents, `session` the in-memory SQLAlchemy session state (ORM objects
mutated by the loop before any commit). -/
structure Db where
  durable : List Item
  session : List Item
deriving DecidableEq, Repr

/-- A fresh session (`SessionLocal()` at `app/sync.py` line 11) sees exactly
the committed table contents. -/
def Db.fresh (items : List Item) : Db := ⟨items, items⟩

/-- Session state after the loop has completed `k` iterations: the first `k`
ORM objects carry their in-place mutations, the rest are untouched. -/
def sessionAfter (ad : Adapter) (items : List Item) (k : Nat) : List Item :=
  (items.take k).map (syncItem ad) ++ items.drop k

/-- `db.commit()`: the session state becomes durable. -/
def dbCommit (db : Db) : Db := ⟨db.session, db.session⟩

/-- `db.rollback()`: the uncommitted session mutations are discarded. -/
def dbRollback (db : Db) : Db := ⟨db.durable, db.durable⟩

/-- Processed/skipped counts as the specification's `ReconcileAll` would
return them. -/
structure SyncCounts where
  processed : Nat
  skipped : Nat
deriving DecidableEq, Repr

/-- A completed run of `sync_jellyfin_status` (`app/sync.py` lines 9-45):
loads all items, runs the loop to the end, then performs the single
`db.commit()` at line 39.  The second component is the Python function's
return value: the function body has no `return` statement, so it returns
`None` — embedded as `none`, carrying no counts. -/
def sync_jellyfin_status (ad : Adapter) (db : Db) : Db × Option SyncCounts :=
  let items := db.durable
  (dbCommit ⟨db.durable, sessionAfter ad items items.length⟩, none)

/-- A run of `sync_jellyfin_status` aborted after `k` loop iterations: an
exception escaping the loop is caught at line 40 and triggers
`db.rollback()` (line 42); the `db.commit()` at line 39 is never reached. -/
def sync_jellyfin_status_aborted (ad : Adapter) (db : Db) (k : Nat) : Db :=
  let items := db.durable
  dbRollback ⟨db.durable, sessionAfter ad items k⟩

/-- A JSON scalar as it can appear as a value of the `ProviderIds` map
(the remote system stores ids as strings or numbers; other JSON types are
not produced there). -/
inductive PVal where
  | str (s : String)
  | int (n : Int)
deriving DecidableEq, Repr

/-- Python truthiness of a `ProviderIds` value (`if provider_tmdb:`,
`app/jellyfin_client.py` line 147): the empty string and `0` are falsy. -/
def pvalTruthy : PVal → Bool
  | .str s => s ≠ ""
  | .int n => n ≠ 0

/-- Python `str(provider_tmdb)` (`app/jellyfin_client.py` line 151). -/
def pyStr : PVal → String
  | .str s => s
  | .int n => toString n

/-- Python `str.lower()`, restricted to ASCII case folding (the ids and
titles compared here are ASCII). -/
def lowerStr (s : String) : String := ⟨s.data.map Char.toLower⟩

/-- ASCII whitespace stripped by Python `str.strip()`. -/
def isPySpace (c : Char) : Bool :=
  c == ' ' || c == '\t' || c == '\n' || c == '\r' || c.toNat == 11 || c.toNat == 12

/-- Python `str.strip()`: drop whitespace from both ends. -/
def trimStr (s : String) : String :=
  ⟨((s.data.dropWhile isPySpace).reverse.dropWhile isPySpace).reverse⟩

/-- The title normalization `.lower().strip()` used throughout
`find_item_by_tmdb_id`. -/
def normTitle (s : String) : String := trimStr (lowerStr s)

/-- Decimal digit-string value, `none` on an empty or non-digit list. -/
def digitsValAux : List Char → Nat → Option Nat
  | [], acc => some acc
  | c :: rest, acc =>
      if c.isDigit then digitsValAux rest (acc * 10 + (c.toNat - 48)) else none

/-- Value of a nonempty all-digit character list. -/
def parseDigits : List Char → Option Nat
  | [] => none
  | c :: rest => digitsValAux (c :: rest) 0

/-- Python `int(s)` on a string: optional surrounding whitespace, optional
sign, then decimal digits; `none` models the `ValueError` on anything
else (digit-group underscores are not modelled). -/
def pyParseInt (s : String) : Option Int :=
  match (trimStr s).data with
  | '-' :: rest => (parseDigits rest).map (fun n => -(n : Int))
  | '+' :: rest => (parseDigits rest).map (fun n => (n : Int))
  | cs => (parseDigits cs).map (fun n => (n : Int))

/-- Python `int(provider_tmdb)` (`app/jellyfin_client.py` line 151):
`none` models the `ValueError` raised when a string does not parse as an
integer. -/
def pyIntQ : PVal → Option Int
  | .str s => pyParseInt s
  | .int n => some n

/-- Embeds the `UserData` payload fields read by `is_watched`
(`app/jellyfin_client.py` lines 281-284): each is optional, `.get`
defaults applying at the use sites.  `PlayedPercentage` is a JSON decimal
number, embedded as a rational. -/
structure UserData where
  played : Option Bool
  playCount : Option Int
  playedPercentage : Option Rat
  lastPlayedDate : Option String
deriving DecidableEq, Repr

/-- The empty `UserData` payload (Python `{}`). -/
def UserData.empty : UserData := ⟨none, none, none, none⟩

/-- Embeds a remote library item as read by `find_item_by_tmdb_id`:
`Id`, `Name` (may be absent), `Type` (absent embedded as `""`, the
`item.get("Type", "")` default), `ProviderIds`, and the embedded
`UserData` payload. -/
structure RemoteItem where
  id : Option String
  name : Option String
  typ : String
  providerIds : List (String × PVal)
  userData : Option UserData
deriving DecidableEq, Repr

/-- Dictionary lookup in the `ProviderIds` map. -/
def pidLookup (pids : List (String × PVal)) (k : String) : Option PVal :=
  (pids.find? (fun p => p.1 == k)).map (fun p => p.2)

/-- The `for key in ["Tmdb", "TheMovieDb", "tmdb", "TMDB"]` scan
(`app/jellyfin_client.py` lines 141-145): first key present wins. -/
def providerTmdb (pids : List (String × PVal)) : Option PVal :=
  (pidLookup pids "Tmdb").orElse (fun _ =>
   (pidLookup pids "TheMovieDb").orElse (fun _ =>
    (pidLookup pids "tmdb").orElse (fun _ =>
     pidLookup pids "TMDB")))

/-- The media-kind filter of the candidate loop
(`app/jellyfin_client.py` lines 133-134). -/
def kindOk (mediaType itemType : String) : Bool :=
  (mediaType == "movie" && itemType == "movie") ||
  (mediaType == "tv" && itemType == "series")

/-- Character-list substring search underlying `strContains`. -/
def charsContain (needle : List Char) : List Char → Bool
  | [] => needle.isEmpty
  | c :: rest => needle.isPrefixOf (c :: rest) || charsContain needle rest

/-- Python substring containment `needle in hay` on strings. -/
def strContains (hay needle : String) : Bool :=
  charsContain needle.data hay.data

/-- The per-candidate title-fallback collection test
(`app/jellyfin_client.py` lines 158-168): requires a truthy requested
title and a truthy item name, then compares the case-folded, trimmed
titles for equality or mutual substring containment. -/
def titleMatchStep (title : Option String) (itemName : String) : Bool :=
  match title with
  | none => false
  | some t =>
      t ≠ "" && itemName ≠ "" &&
        (let nt := normTitle t
         let ni := normTitle itemName
         nt == ni || strContains ni nt || strContains nt ni)

/-- The candidate loop of `find_item_by_tmdb_id`
(`app/jellyfin_client.py` lines 127-173), with loop state
`(withTmdb, acc)` for the `debug_with_tmdb` counter and the
`matching_items_by_title` list.  Returns `(.some r)` in the first
component on the early `return item` of an external-ID match; on a
`ValueError` from `int(provider_tmdb)` the iteration `continue`s, skipping
the title collection for that candidate. -/
def findLoop (tmdbId : Int) (mediaType : String) (title : Option String) :
    List RemoteItem → Nat → List RemoteItem → Option RemoteItem × Nat × List RemoteItem
  | [], withTmdb, acc => (none, withTmdb, acc)
  | r :: rest, withTmdb, acc =>
      if !(kindOk mediaType (lowerStr r.typ)) then
        findLoop tmdbId mediaType title rest withTmdb acc
      else
        let itemName := r.name.getD "Unknown"
        let titleStep := fun (w : Nat) =>
          let acc2 := if titleMatchStep title itemName then acc ++ [r] else acc
          findLoop tmdbId mediaType title rest w acc2
        match providerTmdb r.providerIds with
        | some v =>
            if pvalTruthy v then
              if pyStr v == toString tmdbId then (some r, withTmdb + 1, acc)
              else
                match pyIntQ v with
                | none => findLoop tmdbId mediaType title rest (withTmdb + 1) acc
                | some n =>
                    if n == tmdbId then (some r, withTmdb + 1, acc)
                    else titleStep (withTmdb + 1)
            else titleStep withTmdb
        | none => titleStep withTmdb

/-- Embeds `find_item_by_tmdb_id` (`app/jellyfin_client.py` lines 113-193)
as a function of the fetched library listing: run the candidate loop; on
no external-ID match, the title fallback (lines 174-186) applies only when
title matches were collected AND no same-kind candidate carried a truthy
TMDb provider id (`not debug_with_tmdb`); it prefers the first exact
normalized-title match (recomputed with the `item.get("Name", "")`
default) and otherwise takes the first collected match. -/
def find_item_by_tmdb_id (items : List RemoteItem) (tmdbId : Int)
    (mediaType : String) (title : Option String) : Option RemoteItem :=
  match findLoop tmdbId mediaType title items 0 [] with
  | (some r, _, _) => some r
  | (none, withTmdb, acc) =>
      if !acc.isEmpty && withTmdb == 0 then
        let nt := normTitle (title.getD "")
        match acc.filter (fun r => normTitle (r.name.getD "") == nt) with
        | e :: _ => some e
        | [] => acc.head?
      else none

/-- Whether a candidate is an external-ID match for the requested id and
kind: right kind, a truthy TMDb provider value, and the value equal to the
id as text or as integer (`app/jellyfin_client.py` lines 133-153). -/
def idMatchB (tmdbId : Int) (mediaType : String) (r : RemoteItem) : Bool :=
  kindOk mediaType (lowerStr r.typ) &&
    (match providerTmdb r.providerIds with
     | none => false
     | some v =>
         pvalTruthy v &&
           (pyStr v == toString tmdbId ||
            (match pyIntQ v with
             | some n => n == tmdbId
             | none => false)))

/-- Whether a candidate contributes to the `debug_with_tmdb` counter:
right kind and a truthy TMDb provider value. -/
def hasTmdbProvider (mediaType : String) (r : RemoteItem) : Bool :=
  kindOk mediaType (lowerStr r.typ) &&
    (match providerTmdb r.providerIds with
     | some v => pvalTruthy v
     | none => false)

/-- Whether a candidate is collected by the title fallback: right kind and
passing the title-collection test. -/
def titleCandidate (mediaType : String) (title : Option String) (r : RemoteItem) : Bool :=
  kindOk mediaType (lowerStr r.typ) && titleMatchStep title (r.name.getD "Unknown")

/-- The movie branch of `is_watched` (`app/jellyfin_client.py` lines
279-300), as a function of the user-state payload the method resolved:
watched iff the played flag, a positive play count, a played percentage of
at least 100, or a non-null last-played date (with the `.get` defaults
`False`, `0`, `0` of the source). -/
def movie_is_watched (ud : UserData) : Bool :=
  let played := ud.played.getD false
  let playedPercentage := ud.playedPercentage.getD 0
  let playCount := ud.playCount.getD 0
  let lastPlayedDate := ud.lastPlayedDate
  played || decide (0 < playCount) || decide ((100 : Rat) ≤ playedPercentage) ||
    lastPlayedDate.isSome

/-- An episode as read by the series branch of `is_watched`: only its
`UserData` payload (possibly absent) is consulted. -/
structure Episode where
  userData : Option UserData
deriving DecidableEq, Repr

/-- `episode.get("UserData", {}).get("Played", False)`
(`app/jellyfin_client.py` lines 329-330). -/
def episodePlayed (e : Episode) : Bool :=
  (e.userData.getD UserData.empty).played.getD false

/-- The series branch of `is_watched` (`app/jellyfin_client.py` lines
301-342), as a function of the series' user-state payload and the outcome
of the episode-list fetch: `.error ()` models the request raising,
`.ok none` a non-200 response, `.ok (some eps)` a 200 response whose
`Items` list is `eps` (absent key defaulting to `[]`).  If the
series-level played flag is set the episodes are never consulted;
otherwise a fetch failure falls back to that (false) flag, and a fetched
list yields true iff every episode is played and at least one exists. -/
def series_is_watched (ud : UserData) (episodesFetch : Except Unit (Option (List Episode))) :
    Bool :=
  if ud.played.getD false then true
  else
    match episodesFetch with
    | .error _ => ud.played.getD false
    | .ok none => ud.played.getD false
    | .ok (some episodes) =>
        if episodes.isEmpty then ud.played.getD false
        else
          let total := episodes.length
          let playedEpisodes := (episodes.filter episodePlayed).length
          decide (playedEpisodes = total) && decide (0 < total)

/-- Outcome of one `sync_jellyfin_status()` invocation as observed by the
scheduler loop: completed normally, or raised an exception. -/
inductive SyncOutcome where
  | ok
  | error
deriving DecidableEq, Repr

/-- Observable events of the scheduler loop: a sync invocation with its
outcome, or an `asyncio.sleep` for the given number of seconds. -/
inductive SchedEvent where
  | syncRun (o : SyncOutcome)
  | sleep (seconds : Nat)
deriving DecidableEq, Repr

/-- Embeds `run_periodic_sync` (`app/sync.py` lines 48-57) as the event
trace of its first ticks, one list entry per tick outcome: each iteration
of `while True` awaits `sync_jellyfin_status()` inside a `try` whose
`except` catches any exception, then unconditionally awaits
`asyncio.sleep(interval_seconds)` — the same two events regardless of the
outcome, with no backoff and no skipped tick. -/
def runTrace (interval : Nat) : List SyncOutcome → List SchedEvent
  | [] => []
  | o :: rest => .syncRun o :: .sleep interval :: runTrace interval rest

/-- Fixture: a plain movie watchlist item in its freshly-created state. -/
def itemDune : Item :=
  { id := 1, title := "Dune", mediaType := "movie", tmdbId := 1,
    posterPath := some "/dune.jpg", overview := none, releaseDate := some "2021-10-22",
    isAvailable := false, isWatched := false, watchedManuallySet := false,
    queueOrder := none, jellyfinItemId := none }

/-- Fixture: a second item. -/
def itemTenet : Item := { itemDune with id := 2, tmdbId := 2, title := "Tenet" }

/-- Fixture: a third item. -/
def itemArrival : Item := { itemDune with id := 3, tmdbId := 3, title := "Arrival" }

/-- Fixture: an item whose watched status was manually set by the user. -/
def itemManual : Item :=
  { itemDune with id := 4, tmdbId := 4, isWatched := true, watchedManuallySet := true }

/-- Fixture adapter: every match lookup raises. -/
def adFindErr : Adapter :=
  { find := fun _ _ _ => .error (), watched := fun _ _ _ => .ok true }

/-- Fixture adapter: match found, watched lookup raises. -/
def adFoundWatchedErr : Adapter :=
  { find := fun _ _ _ => .ok (some ⟨some "J1"⟩), watched := fun _ _ _ => .error () }

/-- Fixture adapter: match found, watched true. -/
def adFoundTrue : Adapter :=
  { find := fun _ _ _ => .ok (some ⟨some "J1"⟩), watched := fun _ _ _ => .ok true }

/-- Fixture adapter: no match found. -/
def adNotFound : Adapter :=
  { find := fun _ _ _ => .ok none, watched := fun _ _ _ => .ok false }

/-- Fixture adapter: the match lookup raises exactly for TMDb id 2, and
succeeds (with watched true) for every other id. -/
def adFindErrOn2 : Adapter :=
  { find := fun tid _ _ => if tid == 2 then .error () else .ok (some ⟨some "J1"⟩),
    watched := fun _ _ _ => .ok true }

/-- Fixture: remote movie carrying a non-matching TMDb provider id. -/
def remoteZelda : RemoteItem :=
  { id := some "A", name := some "Zelda", typ := "Movie",
    providerIds := [("Tmdb", .str "999")], userData := none }

/-- Fixture: remote movie with no provider ids, titled "Dune". -/
def remoteDune : RemoteItem :=
  { id := some "B", name := some "Dune", typ := "Movie",
    providerIds := [], userData := none }

/-- Fixture: remote movie whose TMDb provider id is 7. -/
def remoteId7 : RemoteItem :=
  { id := some "C", name := some "Zelda", typ := "Movie",
    providerIds := [("Tmdb", .str "7")], userData := none }

/-- Fixture: an episode with the given played flag. -/
def mkEpisode (b : Bool) : Episode := ⟨some ⟨some b, none, none, none⟩⟩

/-- Helper: an exception from the match lookup is caught by the per-item
handler and the loop body performs no mutation at all. -/
theorem syncItem_of_find_error (ad : Adapter) (item : Item)
    (h : ad.find item.tmdbId item.mediaType item.title = .error ()) :
    syncItem ad item = item := by
  unfold syncItem
  rw [h]

/-- C1: for every item with `watched_manually_set = true`, one iteration of
the `sync_jellyfin_status` loop leaves `is_watched` equal to its prior
value, for every possible adapter behaviour — match found with remote
watched true or false, no match found, and either lookup raising. -/
theorem syncItem_preserves_watched_of_override (ad : Adapter) (item : Item)
    (h : item.watchedManuallySet = true) :
    (syncItem ad item).isWatched = item.isWatched := by
  unfold syncItem
  cases hf : ad.find item.tmdbId item.mediaType item.title with
  | error e => rfl
  | ok r =>
      cases r with
      | none => simp [h]
      | some j => simp [h]

/-- Witness for `syncItem_preserves_watched_of_override`: a manually-set
item keeps `is_watched = true` across all four fixture adapters. -/
theorem syncItem_preserves_watched_of_override_witness :
    itemManual.watchedManuallySet = true ∧
    (syncItem adFoundTrue itemManual).isWatched = itemManual.isWatched ∧
    (syncItem adNotFound itemManual).isWatched = itemManual.isWatched ∧
    (syncItem adFindErr itemManual).isWatched = itemManual.isWatched :=
  ⟨rfl,
   syncItem_preserves_watched_of_override adFoundTrue itemManual rfl,
   syncItem_preserves_watched_of_override adNotFound itemManual rfl,
   syncItem_preserves_watched_of_override adFindErr itemManual rfl⟩

/-- C2 counterexample: the adapter raises during the watched lookup (after
a successful match), and the item is NOT returned with all fields
unchanged — `is_available` and `jellyfin_item_id` were already mutated. -/
theorem syncItem_watched_error_changes_item :
    adFoundWatchedErr.watched itemDune.tmdbId itemDune.mediaType itemDune.title = .error () ∧
    adFoundWatchedErr.find itemDune.tmdbId itemDune.mediaType itemDune.title =
      .ok (some ⟨some "J1"⟩) ∧
    syncItem adFoundWatchedErr itemDune ≠ itemDune :=
  ⟨rfl, rfl, by decide⟩

/-- C2 amended: an exception from the match lookup leaves the item fully
unchanged; an exception from the watched lookup (after a match was found,
with no manual override) leaves the item with `is_available := true` and
`jellyfin_item_id` set to the match's id, every other field (including
`is_watched`) unchanged. -/
theorem syncItem_exception_handling (ad : Adapter) (item : Item) :
    (ad.find item.tmdbId item.mediaType item.title = .error () →
      syncItem ad item = item) ∧
    (∀ j, ad.find item.tmdbId item.mediaType item.title = .ok (some j) →
      item.watchedManuallySet = false →
      ad.watched item.tmdbId item.mediaType item.title = .error () →
      syncItem ad item = { item with isAvailable := true, jellyfinItemId := j.id }) := by
  constructor
  · exact syncItem_of_find_error ad item
  · intro j hf hm hw
    unfold syncItem
    rw [hf]
    simp [hm, hw]

/-- Witness for `syncItem_exception_handling` at the fixture adapters. -/
theorem syncItem_exception_handling_witness :
    syncItem adFindErr itemDune = itemDune ∧
    syncItem adFoundWatchedErr itemDune =
      { itemDune with isAvailable := true, jellyfinItemId := some "J1" } :=
  ⟨(syncItem_exception_handling adFindErr itemDune).1 rfl,
   (syncItem_exception_handling adFoundWatchedErr itemDune).2 ⟨some "J1"⟩ rfl rfl rfl⟩

/-- Helper: one loop iteration is idempotent — the fields the adapter calls
depend on (`tmdb_id`, `media_type`, `title`, `watched_manually_set`) are
never mutated, so a second pass takes the same branches and writes the
same values. -/
theorem syncItem_idem (ad : Adapter) (item : Item) :
    syncItem ad (syncItem ad item) = syncItem ad item := by
  cases hf : ad.find item.tmdbId item.mediaType item.title with
  | error e =>
      cases e
      rw [syncItem_of_find_error ad item hf, syncItem_of_find_error ad item hf]
  | ok r =>
      cases r with
      | none =>
          by_cases hm : item.watchedManuallySet
          · have h1 : syncItem ad item =
                { item with isAvailable := false, jellyfinItemId := none } := by
              unfold syncItem; rw [hf]; simp [hm]
            rw [h1]
            unfold syncItem
            simp [hf, hm]
          · have h1 : syncItem ad item =
                { item with isAvailable := false, isWatched := false,
                            jellyfinItemId := none } := by
              unfold syncItem; rw [hf]; simp [hm]
            rw [h1]
            unfold syncItem
            simp [hf, hm]
      | some j =>
          by_cases hm : item.watchedManuallySet
          · have h1 : syncItem ad item =
                { item with isAvailable := true, jellyfinItemId := j.id } := by
              unfold syncItem; rw [hf]; simp [hm]
            rw [h1]
            unfold syncItem
            simp [hf, hm]
          · cases hw : ad.watched item.tmdbId item.mediaType item.title with
            | error e =>
                have h1 : syncItem ad item =
                    { item with isAvailable := true, jellyfinItemId := j.id } := by
                  unfold syncItem; rw [hf]; simp [hm, hw]
                rw [h1]
                unfold syncItem
                simp [hf, hm, hw]
            | ok w =>
                have h1 : syncItem ad item =
                    { item with isAvailable := true, isWatched := w,
                                jellyfinItemId := j.id } := by
                  unfold syncItem; rw [hf]; simp [hm, hw]
                rw [h1]
                unfold syncItem
                simp [hf, hm, hw]

/-- Helper: a completed loop has processed every item. -/
theorem sessionAfter_full (ad : Adapter) (items : List Item) :
    sessionAfter ad items items.length = items.map (syncItem ad) := by
  simp [sessionAfter]

/-- C9: against a fixed deterministic remote side (one `Adapter` value),
running the sync twice yields the same database state as running it once —
the second run rewrites every item to the value it already has. -/
theorem sync_jellyfin_status_idempotent (ad : Adapter) (items : List Item) :
    (sync_jellyfin_status ad (sync_jellyfin_status ad (Db.fresh items)).1).1 =
      (sync_jellyfin_status ad (Db.fresh items)).1 := by
  simp only [sync_jellyfin_status, Db.fresh, dbCommit, sessionAfter_full]
  have h : (items.map (syncItem ad)).map (syncItem ad) = items.map (syncItem ad) := by
    rw [List.map_map]
    exact List.map_congr_left (fun x _ => syncItem_idem ad x)
  rw [h]

/-- C4 counterexample: a run over the single item `itemDune` aborted after
that item was processed leaves a durable state that does NOT contain the
item's reconciled update (the claim predicts the processed prefix to be
durable). -/
theorem sync_abort_prefix_not_durable :
    (sync_jellyfin_status_aborted adFoundTrue (Db.fresh [itemDune]) 1).durable ≠
      sessionAfter adFoundTrue [itemDune] 1 := by decide

/-- C4 amended: `sync_jellyfin_status` persists in a single `db.commit()`
at the end of the run; a run aborted after `k` of `n` items (the commit
never reached, the session rolled back) leaves the durable state exactly
as before the run, while a completed run makes all `n` reconciled items
durable at once. -/
theorem sync_commit_batched_at_end (ad : Adapter) (items : List Item) (k : Nat) :
    (sync_jellyfin_status_aborted ad (Db.fresh items) k).durable = items ∧
    (sync_jellyfin_status ad (Db.fresh items)).1.durable = items.map (syncItem ad) := by
  constructor
  · rfl
  · simp only [sync_jellyfin_status, Db.fresh, dbCommit, sessionAfter_full]

/-- C3 counterexample: in the exact scenario of the claim — three items,
the adapter raising only for item #2 — the run's return value is `None`:
no `{processed, skipped}` counts are returned at all. -/
theorem sync_returns_no_counts :
    adFindErrOn2.find itemTenet.tmdbId itemTenet.mediaType itemTenet.title = .error () ∧
    itemSkipped adFindErrOn2 itemDune = false ∧
    itemSkipped adFindErrOn2 itemArrival = false ∧
    ¬ ∃ c : SyncCounts,
        (sync_jellyfin_status adFindErrOn2
          (Db.fresh [itemDune, itemTenet, itemArrival])).2 = some c := by
  refine ⟨rfl, rfl, rfl, ?_⟩
  rintro ⟨c, hc⟩
  simp [sync_jellyfin_status] at hc

/-- C3 amended: the run returns no counts (`None`), but failure isolation
holds: when the adapter raises only while matching item #2 of 3, items #1
and #3 end the run (durably) in their reconciled states, item #2 is left
unchanged, and exactly 1 loop iteration entered the per-item error
handler. -/
theorem sync_failure_isolation (ad : Adapter) (a b c : Item)
    (hb : ad.find b.tmdbId b.mediaType b.title = .error ())
    (ha : itemSkipped ad a = false) (hc : itemSkipped ad c = false) :
    (sync_jellyfin_status ad (Db.fresh [a, b, c])).1.durable =
      [syncItem ad a, b, syncItem ad c] ∧
    skippedCount ad [a, b, c] = 1 ∧
    (sync_jellyfin_status ad (Db.fresh [a, b, c])).2 = none := by
  have hbskip : itemSkipped ad b = true := by
    unfold itemSkipped
    rw [hb]
  refine ⟨?_, ?_, rfl⟩
  · simp only [sync_jellyfin_status, Db.fresh, dbCommit, sessionAfter_full,
      List.map_cons, List.map_nil]
    rw [syncItem_of_find_error ad b hb]
  · simp [skippedCount, ha, hc, hbskip]

/-- Witness for `sync_failure_isolation` at the fixture adapter that
raises exactly for TMDb id 2. -/
theorem sync_failure_isolation_witness :
    (sync_jellyfin_status adFindErrOn2
        (Db.fresh [itemDune, itemTenet, itemArrival])).1.durable =
      [syncItem adFindErrOn2 itemDune, itemTenet, syncItem adFindErrOn2 itemArrival] ∧
    skippedCount adFindErrOn2 [itemDune, itemTenet, itemArrival] = 1 ∧
    (sync_jellyfin_status adFindErrOn2
        (Db.fresh [itemDune, itemTenet, itemArrival])).2 = none :=
  sync_failure_isolation adFindErrOn2 itemDune itemTenet itemArrival rfl rfl rfl

/-- C7: for a movie, the watched derivation on the resolved user-state
payload is true iff at least one of — played flag true, play count
positive, played percentage at least 100, last-played date present —
holds, with the source's `.get` defaults for absent fields; all four
false/absent yields false. -/
theorem movie_is_watched_iff (ud : UserData) :
    movie_is_watched ud = true ↔
      (ud.played.getD false = true ∨
       0 < ud.playCount.getD 0 ∨
       (100 : Rat) ≤ ud.playedPercentage.getD 0 ∨
       ud.lastPlayedDate ≠ none) := by
  simp [movie_is_watched, Option.isSome_iff_ne_none, or_assoc]

/-- Witness for `movie_is_watched_iff`: each signal alone suffices, and
the empty payload yields false. -/
theorem movie_is_watched_iff_witness :
    movie_is_watched { UserData.empty with played := some true } = true ∧
    movie_is_watched { UserData.empty with playCount := some 2 } = true ∧
    movie_is_watched { UserData.empty with playedPercentage := some 100 } = true ∧
    movie_is_watched { UserData.empty with lastPlayedDate := some "2024-01-01" } = true ∧
    movie_is_watched UserData.empty = false :=
  ⟨(movie_is_watched_iff _).mpr (Or.inl rfl),
   (movie_is_watched_iff _).mpr (Or.inr (Or.inl (by norm_num [UserData.empty]))),
   (movie_is_watched_iff _).mpr (Or.inr (Or.inr (Or.inl (by norm_num [UserData.empty])))),
   (movie_is_watched_iff _).mpr (Or.inr (Or.inr (Or.inr (by simp [UserData.empty])))),
   by decide⟩

/-- C8: for a series, the series-level played flag short-circuits the
episode check (true for every fetch outcome, even a raising fetch); with
the flag unset, a fetched episode list yields true iff it is non-empty and
every episode's played flag is set. -/
theorem series_is_watched_spec (ud : UserData)
    (fetch : Except Unit (Option (List Episode))) (eps : List Episode) :
    (ud.played.getD false = true → series_is_watched ud fetch = true) ∧
    (ud.played.getD false = false →
      (series_is_watched ud (.ok (some eps)) = true ↔
        eps ≠ [] ∧ ∀ e ∈ eps, episodePlayed e = true)) := by
  constructor
  · intro h
    unfold series_is_watched
    rw [h]
    rfl
  · intro h
    unfold series_is_watched
    rw [h]
    cases heps : eps with
    | nil => simp
    | cons e rest =>
        simp only [List.isEmpty_cons, Bool.false_eq_true, if_false, Bool.and_eq_true,
          decide_eq_true_iff, ne_eq, reduceCtorEq, not_false_eq_true, true_and]
        constructor
        · rintro ⟨hlen, -⟩
          intro x hx
          have hsub := List.filter_sublist (l := e :: rest) (p := episodePlayed)
          have heq := List.Sublist.eq_of_length hsub hlen
          rw [← heq] at hx
          exact (List.mem_filter.mp hx).2
        · intro hall
          have hfe : (e :: rest).filter episodePlayed = e :: rest := by
            rw [List.filter_eq_self]
            intro x hx
            exact hall x hx
          rw [hfe]
          exact ⟨rfl, by simp⟩

/-- Witness for `series_is_watched_spec`: 3 episodes with 2 played yields
false, all 3 played yields true, zero episodes yields false, and a set
series-level flag yields true without consulting episodes (fetch
raising). -/
theorem series_is_watched_spec_witness :
    series_is_watched UserData.empty
        (.ok (some [mkEpisode true, mkEpisode true, mkEpisode true])) = true ∧
    series_is_watched UserData.empty
        (.ok (some [mkEpisode true, mkEpisode true, mkEpisode false])) = false ∧
    series_is_watched UserData.empty (.ok (some [])) = false ∧
    series_is_watched { UserData.empty with played := some true } (.error ()) = true := by
  refine ⟨?_, by decide, by decide, ?_⟩
  · exact ((series_is_watched_spec UserData.empty
        (.ok (some [mkEpisode true, mkEpisode true, mkEpisode true])) _).2 rfl).mpr
      ⟨by decide, by decide⟩
  · exact (series_is_watched_spec { UserData.empty with played := some true }
        (.error ()) []).1 rfl

/-- C10: if the sync invocation of tick `N` raises, the loop still
performs tick `N+1`: in the event trace, tick `N`'s (failed) sync run is
followed by exactly one sleep of the configured interval and then by tick
`N+1`'s sync run — no backoff, no skipped tick. -/
theorem run_periodic_sync_tick_after_error (interval : Nat)
    (outcomes : List SyncOutcome) (n : Nat) (o : SyncOutcome)
    (hn : outcomes.get? n = some .error)
    (hn1 : outcomes.get? (n + 1) = some o) :
    (runTrace interval outcomes).get? (2 * n) = some (.syncRun .error) ∧
    (runTrace interval outcomes).get? (2 * n + 1) = some (.sleep interval) ∧
    (runTrace interval outcomes).get? (2 * n + 2) = some (.syncRun o) := by
  induction n generalizing outcomes with
  | zero =>
      cases outcomes with
      | nil => simp at hn
      | cons x rest =>
          simp only [List.get?] at hn hn1
          cases hn
          cases rest with
          | nil => simp at hn1
          | cons y rest2 =>
              simp only [List.get?] at hn1
              cases hn1
              simp [runTrace, List.get?]
  | succ m ih =>
      cases outcomes with
      | nil => simp at hn
      | cons x rest =>
          simp only [List.get?] at hn hn1
          have h := ih rest hn hn1
          have e2 : 2 * (m + 1) + 2 = 2 * m + 2 + 1 + 1 := by ring
          have e0 : 2 * (m + 1) = 2 * m + 1 + 1 := by ring
          rw [e2, e0]
          simpa [runTrace, List.get?] using h

/-- Witness for `run_periodic_sync_tick_after_error`: tick 0 fails, tick 1
still fires after one 300-second sleep. -/
theorem run_periodic_sync_tick_after_error_witness :
    (runTrace 300 [.error, .ok]).get? 0 = some (.syncRun .error) ∧
    (runTrace 300 [.error, .ok]).get? 1 = some (.sleep 300) ∧
    (runTrace 300 [.error, .ok]).get? 2 = some (.syncRun .ok) :=
  run_periodic_sync_tick_after_error 300 [.error, .ok] 0 .ok rfl rfl

/-- C5 counterexample: the listing holds a same-kind candidate
(`remoteDune`) whose normalized title exactly equals the requested title,
and no candidate's external-ID map matches the requested id 1 — yet
`find_item_by_tmdb_id` returns `None`, because another same-kind candidate
(`remoteZelda`) carries a (non-matching) TMDb provider id, which suppresses
the title fallback (`not debug_with_tmdb`). -/
theorem find_title_fallback_suppressed :
    titleCandidate "movie" (some "Dune") remoteDune = true ∧
    (∀ x ∈ [remoteZelda, remoteDune], idMatchB 1 "movie" x = false) ∧
    find_item_by_tmdb_id [remoteZelda, remoteDune] 1 "movie" (some "Dune") = none := by
  decide

/-- Helper: the candidate loop returns the first external-ID match,
scanning past any number of non-ID-matching candidates, for every loop
state. -/
theorem findLoop_first_id_match (tmdbId : Int) (mediaType : String)
    (title : Option String) (r : RemoteItem) (post : List RemoteItem) :
    ∀ (pre : List RemoteItem) (w : Nat) (acc : List RemoteItem),
      (∀ x ∈ pre, idMatchB tmdbId mediaType x = false) →
      idMatchB tmdbId mediaType r = true →
      (findLoop tmdbId mediaType title (pre ++ r :: post) w acc).1 = some r := by
  intro pre
  induction pre with
  | nil =>
      intro w acc _ hr
      unfold idMatchB at hr
      rw [Bool.and_eq_true] at hr
      obtain ⟨hk, hv⟩ := hr
      simp only [List.nil_append]
      unfold findLoop
      simp only [hk, Bool.not_true, Bool.false_eq_true, if_false]
      cases hp : providerTmdb r.providerIds with
      | none => rw [hp] at hv; exact absurd hv (by simp)
      | some v =>
          rw [hp] at hv
          rw [Bool.and_eq_true] at hv
          obtain ⟨ht, hor⟩ := hv
          simp only [ht, if_true]
          cases hs : (pyStr v == toString tmdbId) with
          | true => simp [hs]
          | false =>
              rw [hs, Bool.false_or] at hor
              cases hi : pyIntQ v with
              | none => rw [hi] at hor; exact absurd hor (by simp)
              | some n =>
                  rw [hi] at hor
                  have hn : n = tmdbId := by simpa using hor
                  simp [hn]
  | cons x pre' ih =>
      intro w acc hpre hr
      have hx : idMatchB tmdbId mediaType x = false := hpre x (List.mem_cons_self x pre')
      have hpre' : ∀ y ∈ pre', idMatchB tmdbId mediaType y = false :=
        fun y hy => hpre y (List.mem_cons_of_mem x hy)
      simp only [List.cons_append]
      unfold findLoop
      by_cases hk : kindOk mediaType (lowerStr x.typ)
      · unfold idMatchB at hx
        simp only [hk, Bool.true_and] at hx
        simp only [hk, Bool.not_true, Bool.false_eq_true, if_false]
        cases hp : providerTmdb x.providerIds with
        | none =>
            simp only [hp]
            exact ih _ _ hpre' hr
        | some v =>
            rw [hp] at hx
            simp only [hp]
            by_cases ht : pvalTruthy v
            · simp only [ht, Bool.true_and, Bool.or_eq_false_iff] at hx
              obtain ⟨hs, hm⟩ := hx
              simp only [ht, if_true, hs, Bool.false_eq_true, if_false]
              cases hi : pyIntQ v with
              | none =>
                  exact ih _ _ hpre' hr
              | some n =>
                  rw [hi] at hm
                  have hm2 : (n == tmdbId) = false := hm
                  simp only [hm2, Bool.false_eq_true, if_false]
                  exact ih _ _ hpre' hr
            · simp only [Bool.not_eq_true] at ht
              simp only [ht, Bool.false_eq_true, if_false]
              exact ih _ _ hpre' hr
      · simp only [Bool.not_eq_true] at hk
        simp only [hk, Bool.not_false, if_true]
        exact ih _ _ hpre' hr

/-- C6: external-ID matching takes strict precedence over title matching —
if the candidates scanned before `r` are not external-ID matches and `r`
is one, `find_item_by_tmdb_id` returns `r`, wherever any title-matching
candidate sits (`pre` and `post` are arbitrary, so both orders of the
claim's two-item scenario are covered). -/
theorem find_id_match_precedence (tmdbId : Int) (mediaType : String)
    (title : Option String) (r : RemoteItem) (pre post : List RemoteItem)
    (hpre : ∀ x ∈ pre, idMatchB tmdbId mediaType x = false)
    (hr : idMatchB tmdbId mediaType r = true) :
    find_item_by_tmdb_id (pre ++ r :: post) tmdbId mediaType title = some r := by
  have h := findLoop_first_id_match tmdbId mediaType title r post pre 0 [] hpre hr
  unfold find_item_by_tmdb_id
  rcases hfl : findLoop tmdbId mediaType title (pre ++ r :: post) 0 [] with ⟨o, w, a⟩
  rw [hfl] at h
  cases o with
  | none => simp at h
  | some s => simpa using h

/-- Witness for `find_id_match_precedence`: `remoteId7` (TMDb id 7) wins
over the exact-title match `remoteDune` in both listing orders. -/
theorem find_id_match_precedence_witness :
    find_item_by_tmdb_id [remoteDune, remoteId7] 7 "movie" (some "Dune") = some remoteId7 ∧
    find_item_by_tmdb_id [remoteId7, remoteDune] 7 "movie" (some "Dune") = some remoteId7 :=
  ⟨find_id_match_precedence 7 "movie" (some "Dune") remoteId7 [remoteDune] []
      (by decide) (by decide),
   find_id_match_precedence 7 "movie" (some "Dune") remoteId7 [] [remoteDune]
      (by decide) (by decide)⟩

/-- Helper: the collected title matches of one loop step extend the
accumulator exactly by the same-kind title candidates. -/
theorem titleAcc_cons (mediaType : String) (title : Option String) (x : RemoteItem)
    (rest acc : List RemoteItem) (hk : kindOk mediaType (lowerStr x.typ) = true) :
    (if titleMatchStep title (x.name.getD "Unknown") = true then acc ++ [x] else acc) ++
      rest.filter (titleCandidate mediaType title) =
    acc ++ (x :: rest).filter (titleCandidate mediaType title) := by
  rw [List.filter_cons]
  by_cases htm : titleMatchStep title (x.name.getD "Unknown")
  · simp [titleCandidate, hk, htm, List.append_assoc]
  · simp [titleCandidate, hk, htm]

/-- Helper: when no same-kind candidate carries a truthy TMDb provider id,
the candidate loop finds no external-ID match, leaves the
`debug_with_tmdb` counter untouched, and collects exactly the same-kind
title candidates, in listing order. -/
theorem findLoop_no_tmdb_provider (tmdbId : Int) (mediaType : String)
    (title : Option String) :
    ∀ (items : List RemoteItem) (w : Nat) (acc : List RemoteItem),
      (∀ x ∈ items, hasTmdbProvider mediaType x = false) →
      findLoop tmdbId mediaType title items w acc =
        (none, w, acc ++ items.filter (titleCandidate mediaType title)) := by
  intro items
  induction items with
  | nil => intro w acc _; simp [findLoop]
  | cons x rest ih =>
      intro w acc h
      have hx := h x (List.mem_cons_self x rest)
      have hrest : ∀ y ∈ rest, hasTmdbProvider mediaType y = false :=
        fun y hy => h y (List.mem_cons_of_mem x hy)
      unfold findLoop
      by_cases hk : kindOk mediaType (lowerStr x.typ)
      · unfold hasTmdbProvider at hx
        simp only [hk, Bool.true_and] at hx
        simp only [hk, Bool.not_true, Bool.false_eq_true, if_false]
        cases hp : providerTmdb x.providerIds with
        | none =>
            simp only [hp]
            rw [ih _ _ hrest, titleAcc_cons mediaType title x rest acc hk]
        | some v =>
            rw [hp] at hx
            have hx2 : pvalTruthy v = false := hx
            simp only [hp, hx2, Bool.false_eq_true, if_false]
            rw [ih _ _ hrest, titleAcc_cons mediaType title x rest acc hk]
      · simp only [Bool.not_eq_true] at hk
        simp only [hk, Bool.not_false, if_true]
        rw [ih _ _ hrest, List.filter_cons]
        simp [titleCandidate, hk]


/-- Fixture: remote movie titled "Dune: Part Two" carrying only a non-TMDb
provider id. -/
def remoteDuneTwo : RemoteItem :=
  { id := some "D", name := some "Dune: Part Two", typ := "Movie",
    providerIds := [("Imdb", .str "tt15239678")], userData := none }

/-- C5 amended: the title fallback applies only when NO same-kind
candidate carries a truthy TMDb provider id; under that condition, if any
same-kind candidate's normalized title equals or substring-overlaps the
requested title, `find_item_by_tmdb_id` returns such a candidate.  (As
`find_title_fallback_suppressed` shows, a same-kind candidate with any —
even non-matching — TMDb provider id suppresses the fallback entirely.) -/
theorem find_title_fallback_no_provider_ids (tmdbId : Int) (mediaType : String)
    (title : Option String) (items : List RemoteItem)
    (hno : ∀ x ∈ items, hasTmdbProvider mediaType x = false)
    (hex : ∃ x ∈ items, titleCandidate mediaType title x = true) :
    ∃ r, find_item_by_tmdb_id items tmdbId mediaType title = some r ∧
      r ∈ items ∧ titleCandidate mediaType title r = true := by
  have hloop := findLoop_no_tmdb_provider tmdbId mediaType title items 0 [] hno
  have hne : items.filter (titleCandidate mediaType title) ≠ [] := by
    rcases hex with ⟨x, hx, hpx⟩
    have hmem : x ∈ items.filter (titleCandidate mediaType title) :=
      List.mem_filter.mpr ⟨hx, hpx⟩
    intro h0
    rw [h0] at hmem
    exact absurd hmem (List.not_mem_nil x)
  unfold find_item_by_tmdb_id
  rw [hloop]
  simp only [List.nil_append]
  have hcond : (!(items.filter (titleCandidate mediaType title)).isEmpty &&
      ((0 : Nat) == 0)) = true := by
    simp [List.isEmpty_eq_true, hne]
  rw [hcond]
  simp only [if_true]
  cases he : (items.filter (titleCandidate mediaType title)).filter
      (fun r => normTitle (r.name.getD "") == normTitle (title.getD "")) with
  | cons e es =>
      refine ⟨e, ?_, ?_, ?_⟩
      · rfl
      · have : e ∈ items.filter (titleCandidate mediaType title) := by
          have : e ∈ (items.filter (titleCandidate mediaType title)).filter
              (fun r => normTitle (r.name.getD "") == normTitle (title.getD "")) := by
            rw [he]; exact List.mem_cons_self e es
          exact (List.mem_filter.mp this).1
        exact (List.mem_filter.mp this).1
      · have : e ∈ items.filter (titleCandidate mediaType title) := by
          have : e ∈ (items.filter (titleCandidate mediaType title)).filter
              (fun r => normTitle (r.name.getD "") == normTitle (title.getD "")) := by
            rw [he]; exact List.mem_cons_self e es
          exact (List.mem_filter.mp this).1
        exact (List.mem_filter.mp this).2
  | nil =>
      cases hM : items.filter (titleCandidate mediaType title) with
      | nil => exact absurd hM hne
      | cons a as =>
          refine ⟨a, ?_, ?_, ?_⟩
          · rfl
          · have ha : a ∈ items.filter (titleCandidate mediaType title) := by
              rw [hM]; exact List.mem_cons_self a as
            exact (List.mem_filter.mp ha).1
          · have ha : a ∈ items.filter (titleCandidate mediaType title) := by
              rw [hM]; exact List.mem_cons_self a as
            exact (List.mem_filter.mp ha).2

/-- Witness for `find_title_fallback_no_provider_ids`: with no TMDb
provider ids in the listing, the exact/partial title matches are found. -/
theorem find_title_fallback_no_provider_ids_witness :
    ∃ r, find_item_by_tmdb_id [remoteDuneTwo, remoteDune] 1 "movie" (some "Dune") = some r ∧
      r ∈ [remoteDuneTwo, remoteDune] ∧ titleCandidate "movie" (some "Dune") r = true :=
  find_title_fallback_no_provider_ids 1 "movie" (some "Dune") [remoteDuneTwo, remoteDune]
    (by decide) ⟨remoteDune, by decide, by decide⟩
